import Mathlib

/-!
Verification development for the Zoho email tool
(src/skills/zoho-email-integration/scripts/zoho-email.py).

Shallow embedding of the OAuth2 token lifecycle, the REST transport client,
the mailbox facade (dual transport with REST-to-IMAP fallback), the bulk
operation engine, and the two search-query translators.  External I/O
(HTTP requests, IMAP sockets, the file system) is modelled by explicit
oracle records describing the outcome of each transport interaction, and
the mailbox itself is a list of messages whose flags the operations update.
-/

set_option maxRecDepth 100000

/-! ## Token lifecycle (zoho-email.py lines 101-109, 156-176, 661-689) -/

/-- An OAuth2 credential record as stored in the token file.  The fields
`created_at` and `expires_in` are read with `.get` defaults in the source
(0 and 3600), hence `Option`; the other fields are validated to be present
at setup time. -/
structure TokenData where
  client_id : String
  client_secret : String
  access_token : String
  refresh_token : String
  email : Option String
  expires_in : Option Int
  created_at : Option Int
deriving DecidableEq

/-- `is_token_expired` (lines 101-109):
`created_at = token_data.get('created_at', 0)`,
`expires_in = token_data.get('expires_in', 3600)`,
`expires_at = created_at + expires_in`, and the result is
`now >= expires_at - 300` (refresh if expiring within 5 minutes). -/
def is_token_expired (t : TokenData) (now : Int) : Bool :=
  let created_at := t.created_at.getD 0
  let expires_in := t.expires_in.getD 3600
  let expires_at := created_at + expires_in
  decide (expires_at - 300 ≤ now)

/-- The parsed JSON body of a successful token-endpoint response.
`access_token` and `expires_in` are accessed with `[...]` in the source
(a missing key would raise, i.e. the refresh would not be successful);
`refresh_token` is checked with `in` before use, hence `Option`. -/
structure RefreshResponse where
  access_token : String
  refresh_token : Option String
  expires_in : Int
deriving DecidableEq

/-- The in-place token update performed by `ZohoEmail.refresh_token`
(lines 676-680) and identically by
`ZohoRestAPIClient._refresh_token_if_needed` (lines 168-172):
replace `access_token`, replace `refresh_token` only when present in the
response, take the new `expires_in`, and set `created_at` to now. -/
def refresh_token_update (t : TokenData) (r : RefreshResponse) (now : Int) : TokenData :=
  { t with
    access_token := r.access_token
    refresh_token := match r.refresh_token with
      | some rt => rt
      | none => t.refresh_token
    expires_in := some r.expires_in
    created_at := some now }

/-- Resolved authentication method of a session. -/
inductive AuthRes
  | password
  | oauth2
deriving DecidableEq

/-- In-memory tokens plus the persisted token-file content. -/
structure TokenSt where
  tokens : TokenData
  file : Option TokenData
deriving DecidableEq

namespace ZohoEmail

/-- `ZohoEmail.refresh_token` (lines 661-689): rejected unless the auth
method is OAuth2; otherwise the token-endpoint call (`resp`) is made, and
on success the updated record is stored in memory and saved to the token
file (`save_oauth_tokens`). -/
def refresh_token (authMethod : AuthRes) (st : TokenSt)
    (resp : Except String RefreshResponse) (now : Int) : Except String TokenSt :=
  match authMethod with
  | .password => .error "Token refresh only available with OAuth2 authentication"
  | .oauth2 =>
    match resp with
    | .error e => .error ("Failed to refresh token: " ++ e)
    | .ok r =>
      let t := refresh_token_update st.tokens r now
      .ok { tokens := t, file := some t }

end ZohoEmail

/-! ## Mailbox model -/

/-- A message in the selected folder.  `matches` abstracts whether the
message satisfies the bulk search query (decided server side), `age` is
its age in days (for the `SINCE` recency window), `seen` and `deleted`
are its IMAP flags. -/
structure Msg where
  mid : Nat
  seen : Bool
  deleted : Bool
  matchesQ : Bool
  age : Nat
deriving DecidableEq

abbrev Mailbox := List Msg

/-- Set or clear the `\Seen` flag of message `i` (the effect of
`imap.store(id, '+FLAGS'/'-FLAGS', '\Seen')` on the server). -/
def setSeen (v : Bool) (i : Nat) (box : Mailbox) : Mailbox :=
  box.map fun m => if m.mid = i then { m with seen := v } else m

/-- Set the `\Deleted` flag of message `i`. -/
def setDeleted (i : Nat) (box : Mailbox) : Mailbox :=
  box.map fun m => if m.mid = i then { m with deleted := true } else m

/-- `imap.expunge()`: permanently remove every message flagged deleted. -/
def expungeBox (box : Mailbox) : Mailbox :=
  box.filter fun m => !m.deleted

/-- Effect on the folder of a successful REST `markAsRead`/`markAsUnread`
bulk update over a list of ids. -/
def setSeenAll (v : Bool) (ids : List Nat) (box : Mailbox) : Mailbox :=
  ids.foldl (fun b i => setSeen v i b) box

/-- Effect of a successful REST per-message DELETE: the message leaves the
folder (moved to trash). -/
def removeMsg (i : Nat) (box : Mailbox) : Mailbox :=
  box.filter fun m => !(m.mid = i)

/-- The `success`/`failed` shape shared by all bulk mailbox actions. -/
structure BulkResult where
  success : List Nat
  failed : List Nat
deriving DecidableEq

/-! ## REST transport client (`ZohoRestAPIClient`, lines 119-538) -/

/-- Outcome of one REST `updatemessage`/DELETE request as seen by the
caller: HTTP 200 with status code 200 in the body, a non-200 status body,
or a raised exception (after `_make_request` exhausted its retries). -/
inductive RestOutcome
  | ok
  | badStatus
  | raises
deriving DecidableEq

/-- Oracle for the REST client's transport interactions. -/
structure RestEnv where
  accountOk : Bool
  folderFound : Bool
  markReadOutcome : RestOutcome
  markUnreadOutcome : RestOutcome
  moveOutcome : RestOutcome
  deleteOutcome : Nat → RestOutcome

/-- Return value of a REST client bulk operation: the raised-or-returned
result, the folder content afterwards, and whether any HTTP request was
issued during the call. -/
structure RestRet where
  result : Except String BulkResult
  box : Mailbox
  madeCall : Bool

namespace ZohoRestAPIClient

/-- `ZohoRestAPIClient.mark_as_read` (lines 386-413): empty input returns
the empty result before any request; `get_account_id` failure raises (it
sits outside the `try`); otherwise a single `updatemessage` request marks
every id at once, giving all-success on code 200 and all-failed otherwise
(non-200 body, or exception caught by the method's own handler). -/
def mark_as_read (env : RestEnv) (ids : List Nat) (box : Mailbox) : RestRet :=
  if ids.isEmpty then ⟨.ok ⟨[], []⟩, box, false⟩
  else if !env.accountOk then ⟨.error "Failed to get account ID", box, true⟩
  else
    match env.markReadOutcome with
    | .ok => ⟨.ok ⟨ids, []⟩, setSeenAll true ids box, true⟩
    | .badStatus => ⟨.ok ⟨[], ids⟩, box, true⟩
    | .raises => ⟨.ok ⟨[], ids⟩, box, true⟩

/-- `ZohoRestAPIClient.mark_as_unread` (lines 415-442), same shape as
`mark_as_read` with mode `markAsUnread`. -/
def mark_as_unread (env : RestEnv) (ids : List Nat) (box : Mailbox) : RestRet :=
  if ids.isEmpty then ⟨.ok ⟨[], []⟩, box, false⟩
  else if !env.accountOk then ⟨.error "Failed to get account ID", box, true⟩
  else
    match env.markUnreadOutcome with
    | .ok => ⟨.ok ⟨ids, []⟩, setSeenAll false ids box, true⟩
    | .badStatus => ⟨.ok ⟨[], ids⟩, box, true⟩
    | .raises => ⟨.ok ⟨[], ids⟩, box, true⟩

/-- `ZohoRestAPIClient.move_messages` (lines 483-523): folder lookup via
`list_folders`, then one `moveMessage` request for the whole id list;
all-success on code 200, all-failed otherwise (including folder not
found). -/
def move_messages (env : RestEnv) (ids : List Nat) (box : Mailbox) : RestRet :=
  if ids.isEmpty then ⟨.ok ⟨[], []⟩, box, false⟩
  else if !env.accountOk then ⟨.error "Failed to get account ID", box, true⟩
  else if !env.folderFound then ⟨.ok ⟨[], ids⟩, box, true⟩
  else
    match env.moveOutcome with
    | .ok => ⟨.ok ⟨ids, []⟩, ids.foldl (fun b i => removeMsg i b) box, true⟩
    | .badStatus => ⟨.ok ⟨[], ids⟩, box, true⟩
    | .raises => ⟨.ok ⟨[], ids⟩, box, true⟩

/-- The per-id loop of `ZohoRestAPIClient.delete_messages`
(lines 463-480): each id gets its own DELETE request; code 200 appends it
to `success` (and the message leaves the folder), anything else (non-200
or exception) appends it to `failed`; processing always continues. -/
def deleteLoop (out : Nat → RestOutcome) : List Nat → Mailbox → BulkResult × Mailbox
  | [], box => (⟨[], []⟩, box)
  | i :: rest, box =>
    match out i with
    | .ok =>
      let (r, box') := deleteLoop out rest (removeMsg i box)
      (⟨i :: r.success, r.failed⟩, box')
    | .badStatus =>
      let (r, box') := deleteLoop out rest box
      (⟨r.success, i :: r.failed⟩, box')
    | .raises =>
      let (r, box') := deleteLoop out rest box
      (⟨r.success, i :: r.failed⟩, box')

/-- `ZohoRestAPIClient.delete_messages` (lines 444-481): folder lookup,
then per-id DELETE requests collecting an individual success/failure
partition. -/
def delete_messages (env : RestEnv) (ids : List Nat) (box : Mailbox) : RestRet :=
  if ids.isEmpty then ⟨.ok ⟨[], []⟩, box, false⟩
  else if !env.accountOk then ⟨.error "Failed to get account ID", box, true⟩
  else if !env.folderFound then ⟨.ok ⟨[], ids⟩, box, true⟩
  else
    let (r, box') := deleteLoop env.deleteOutcome ids box
    ⟨.ok r, box', true⟩

end ZohoRestAPIClient

/-! ## Auth/transport selector (`ZohoEmail.__init__`, lines 541-654) -/

/-- The `auth_method` argument. -/
inductive AuthArg
  | auto
  | password
  | oauth2
deriving DecidableEq

/-- The `api_mode` argument. -/
inductive ApiArg
  | auto
  | rest
  | imap
deriving DecidableEq

/-- Resolved transport of a session. -/
inductive ApiMode
  | rest
  | imap
deriving DecidableEq

/-- Construction-time errors, mapped from the `ValueError` messages of
`__init__` and its helpers. -/
inductive InitErr
  | noCredentials
  | passwordEnvMissing
  | oauthSetupFailed
  | unsupportedCombination
  | missingDependency
  | restInitFailed
deriving DecidableEq

/-- Environment facts probed during construction. -/
structure InitEnv where
  tokenFileExists : Bool
  envEmail : Bool
  envPassword : Bool
  hasRequests : Bool
  tokenLoadOk : Bool
  tokenExpiredAtStart : Bool
  refreshOk : Bool
  restClientOk : Bool

/-- Resolved session configuration. -/
structure SessionConfig where
  authMethod : AuthRes
  apiMode : ApiMode
deriving DecidableEq

namespace ZohoEmail

/-- Auth-axis resolution (lines 563-575): in `auto` mode prefer OAuth2
when the token file exists, else password when both env vars are set,
else fail. -/
def resolveAuth (authArg : AuthArg) (env : InitEnv) : Except InitErr AuthRes :=
  match authArg with
  | .auto =>
    if env.tokenFileExists then .ok .oauth2
    else if env.envEmail && env.envPassword then .ok .password
    else .error .noCredentials
  | .password => .ok .password
  | .oauth2 => .ok .oauth2

/-- Authentication setup (lines 577-583 dispatching to `_setup_password`,
lines 615-622, and `_setup_oauth2`, lines 624-654).  Returns the number of
token-endpoint network calls made (the eager refresh when the loaded token
is already expired).  Token load or validation failure, and a failed
refresh, surface as a `ValueError` from `_setup_oauth2`. -/
def setupAuth (auth : AuthRes) (env : InitEnv) : Except InitErr Unit × Nat :=
  match auth with
  | .password =>
    if env.envEmail && env.envPassword then (.ok (), 0)
    else (.error .passwordEnvMissing, 0)
  | .oauth2 =>
    if !env.tokenLoadOk then (.error .oauthSetupFailed, 0)
    else if env.tokenExpiredAtStart then
      if env.refreshOk then (.ok (), 1) else (.error .oauthSetupFailed, 1)
    else (.ok (), 0)

/-- Transport-axis resolution (lines 585-613): in `auto` mode REST is
chosen only when auth resolved to OAuth2 and the `requests` library is
importable, and a throwing `ZohoRestAPIClient` constructor silently
downgrades to IMAP; explicit `rest` demands OAuth2 (else the
"REST API mode requires OAuth2 authentication" `ValueError`), demands the
library (else the "requires requests library" `ValueError`), and
propagates a constructor failure. -/
def resolveApiMode (apiArg : ApiArg) (auth : AuthRes) (env : InitEnv) :
    Except InitErr ApiMode :=
  match apiArg with
  | .auto =>
    if auth = .oauth2 && env.hasRequests then
      if env.restClientOk then .ok .rest else .ok .imap
    else .ok .imap
  | .rest =>
    if auth ≠ .oauth2 then .error .unsupportedCombination
    else if !env.hasRequests then .error .missingDependency
    else if env.restClientOk then .ok .rest else .error .restInitFailed
  | .imap => .ok .imap

/-- `ZohoEmail.__init__` (lines 541-613): resolve the auth method, run the
auth setup, then resolve the transport.  The second component counts
network calls made during construction (only the token refresh performs
one). -/
def init (authArg : AuthArg) (apiArg : ApiArg) (env : InitEnv) :
    Except InitErr SessionConfig × Nat :=
  match resolveAuth authArg env with
  | .error e => (.error e, 0)
  | .ok auth =>
    match setupAuth auth env with
    | (.error e, n) => (.error e, n)
    | (.ok _, n) =>
      match resolveApiMode apiArg auth env with
      | .error e => (.error e, n)
      | .ok mode => (.ok ⟨auth, mode⟩, n)

end ZohoEmail

/-! ## Mailbox facade (`ZohoEmail`, lines 730-780 and 1293-1452) -/

/-- Facade state: the folder content and whether `self.imap` currently
holds a connection object. -/
structure St where
  box : Mailbox
  imapConn : Bool
deriving DecidableEq

/-- `ZohoEmail.disconnect_imap` (lines 769-780): best-effort `close` and
`logout` with all errors swallowed, then `self.imap = None`. -/
def disconnect_imap (s : St) : St :=
  { s with imapConn := false }

/-- Outcome of one `imap.store` command: status `OK`, a non-`OK` status,
or a raised exception (caught per id by the loop). -/
inductive StoreOutcome
  | ok
  | bad
  | raises
deriving DecidableEq

/-- Oracle for the facade's IMAP interactions. -/
structure ImapEnv where
  connectOk : Bool
  searchOk : Bool
  expungeOk : Bool
  storeSeen : Nat → StoreOutcome
  storeUnseen : Nat → StoreOutcome
  storeDeleted : Nat → StoreOutcome
  fetchOk : Nat → Bool

/-- Combined oracle for one facade call. -/
structure Env where
  rest : RestEnv
  restSearchOk : Bool
  imap : ImapEnv

/-- The shared per-id store loop of `ZohoEmail.mark_as_read`,
`mark_as_unread` and `delete_emails` (lines 1310-1325, 1347-1362,
1384-1397): each id is stored individually; status `OK` appends it to
`success` and applies the flag change `eff`, a non-`OK` status or an
exception appends it to `failed`; the loop never aborts. -/
def imapStoreLoop (store : Nat → StoreOutcome) (eff : Nat → Mailbox → Mailbox) :
    List Nat → Mailbox → BulkResult × Mailbox
  | [], box => (⟨[], []⟩, box)
  | i :: rest, box =>
    match store i with
    | .ok =>
      let (r, box') := imapStoreLoop store eff rest (eff i box)
      (⟨i :: r.success, r.failed⟩, box')
    | .bad =>
      let (r, box') := imapStoreLoop store eff rest box
      (⟨r.success, i :: r.failed⟩, box')
    | .raises =>
      let (r, box') := imapStoreLoop store eff rest box
      (⟨r.success, i :: r.failed⟩, box')

/-- The IMAP body shared by the three facade mutators: `connect_imap`,
`select(folder, readonly=False)`, the per-id store loop, for delete a
final `expunge`, all inside `try ... finally: disconnect_imap()`.  A
connect failure (or, for delete, an expunge failure) raises; the `finally`
releases the connection on every path. -/
def imapStoreOp (env : ImapEnv) (store : Nat → StoreOutcome)
    (eff : Nat → Mailbox → Mailbox) (doExpunge : Bool) (ids : List Nat)
    (s : St) : Except String BulkResult × St :=
  if !env.connectOk then
    (.error "Failed to connect to IMAP", disconnect_imap s)
  else
    let s1 : St := { s with imapConn := true }
    let (r, box') := imapStoreLoop store eff ids s1.box
    if doExpunge then
      if env.expungeOk then
        (.ok r, disconnect_imap { s1 with box := expungeBox box' })
      else
        (.error "expunge failed", disconnect_imap { s1 with box := box' })
    else
      (.ok r, disconnect_imap { s1 with box := box' })

namespace ZohoEmail

/-- `ZohoEmail.mark_as_read` (lines 1293-1328): an empty id list raises
`ValueError` up front; in REST mode the REST client is tried first and
any exception from it falls through to the IMAP path; the IMAP path runs
the per-id `+FLAGS \Seen` store loop under try/finally. -/
def mark_as_read (mode : ApiMode) (env : Env) (ids : List Nat) (s : St) :
    Except String BulkResult × St :=
  if ids.isEmpty then (.error "email_ids list cannot be empty", s)
  else
    match mode with
    | .rest =>
      let r := ZohoRestAPIClient.mark_as_read env.rest ids s.box
      match r.result with
      | .ok res => (.ok res, { s with box := r.box })
      | .error _ =>
        imapStoreOp env.imap env.imap.storeSeen (setSeen true) false ids
          { s with box := r.box }
    | .imap =>
      imapStoreOp env.imap env.imap.storeSeen (setSeen true) false ids s

/-- `ZohoEmail.mark_as_unread` (lines 1330-1365), same shape with
`-FLAGS \Seen`. -/
def mark_as_unread (mode : ApiMode) (env : Env) (ids : List Nat) (s : St) :
    Except String BulkResult × St :=
  if ids.isEmpty then (.error "email_ids list cannot be empty", s)
  else
    match mode with
    | .rest =>
      let r := ZohoRestAPIClient.mark_as_unread env.rest ids s.box
      match r.result with
      | .ok res => (.ok res, { s with box := r.box })
      | .error _ =>
        imapStoreOp env.imap env.imap.storeUnseen (setSeen false) false ids
          { s with box := r.box }
    | .imap =>
      imapStoreOp env.imap env.imap.storeUnseen (setSeen false) false ids s

/-- `ZohoEmail.delete_emails` (lines 1367-1406): REST first in REST mode,
else the `+FLAGS \Deleted` store loop followed by a single `expunge`. -/
def delete_emails (mode : ApiMode) (env : Env) (ids : List Nat) (s : St) :
    Except String BulkResult × St :=
  if ids.isEmpty then (.error "email_ids list cannot be empty", s)
  else
    match mode with
    | .rest =>
      let r := ZohoRestAPIClient.delete_messages env.rest ids s.box
      match r.result with
      | .ok res => (.ok res, { s with box := r.box })
      | .error _ =>
        imapStoreOp env.imap env.imap.storeDeleted setDeleted true ids
          { s with box := r.box }
    | .imap =>
      imapStoreOp env.imap env.imap.storeDeleted setDeleted true ids s

end ZohoEmail

/-! ## Search and the bulk operation engine (lines 824-919, 1489-1629) -/

/-- A transport path entered by one facade call (the `api_mode == 'rest'`
block, or the IMAP block that follows it). -/
inductive Attempt
  | rest
  | imap
deriving DecidableEq

/-- Result, post-state and transport-path trace of a facade call. -/
structure OpRet (α : Type) where
  result : Except String α
  st : St
  trace : List Attempt

/-- `search_days = search_days or DEFAULT_SEARCH_DAYS` (lines 826, 1503):
Python `or` replaces both `None` and `0` by the default 30
(`ZOHO_SEARCH_DAYS` unset). -/
def pyOrDefaultDays (d : Option Nat) : Nat :=
  match d with
  | none => 30
  | some 0 => 30
  | some k => k

/-- Python `l[-n:]` for a nonnegative `n` (lines 887, 1581): the last `n`
elements, except that `n = 0` gives the whole list. -/
def pyLastSlice (n : Nat) (l : List α) : List α :=
  if n = 0 then l else l.drop (l.length - n)

/-- Messages returned by the REST search call
(`rest_client.list_messages(folder, limit, search_query)`): the server
returns at most `limit` matching messages; no date-range parameter is
passed, so the recency window does not apply on this path.  A query of
`ALL` lists the folder instead of searching. -/
def restSearchRows (queryAll : Bool) (box : Mailbox) (limit : Nat) : List Msg :=
  (box.filter fun m => queryAll || m.matchesQ).take limit

/-- Whether a message satisfies the IMAP query actually sent: the user
query (`ALL` matches everything) conjoined, when `withSince` holds, with
the `SINCE` clause appended for the `days` recency window. -/
def imapQueryMatch (queryAll : Bool) (withSince : Bool) (days : Nat) (m : Msg) : Bool :=
  (if queryAll then true else m.matchesQ) &&
  (if withSince then decide (m.age ≤ days) else true)

/-- The IMAP block of `ZohoEmail.search_emails` (lines 867-919):
connect, `select(folder, readonly=True)`, append `SINCE` when
`search_days > 0 and query != "ALL"`, search, take the last `limit` ids,
fetch each (a failed fetch is skipped via `continue`), and always
disconnect in the `finally`. -/
def searchImapPath (env : Env) (queryAll : Bool) (limit : Nat) (days : Nat)
    (s : St) : OpRet (List Nat) :=
  if !env.imap.connectOk then
    ⟨.error "Failed to connect to IMAP", disconnect_imap s, [.imap]⟩
  else
    let s1 : St := { s with imapConn := true }
    if !env.imap.searchOk then
      ⟨.error "Search failed", disconnect_imap s1, [.imap]⟩
    else
      let withSince := decide (0 < days) && !queryAll
      let ids := (s.box.filter (imapQueryMatch queryAll withSince days)).map (·.mid)
      let rows := (pyLastSlice limit ids).filter env.imap.fetchOk
      ⟨.ok rows, disconnect_imap s1, [.imap]⟩

namespace ZohoEmail

/-- `ZohoEmail.search_emails` (lines 824-919): in REST mode try the REST
search first (any exception falls through to the IMAP block); otherwise,
or on fallback, run the IMAP block. -/
def search_emails (mode : ApiMode) (env : Env) (queryAll : Bool)
    (limit : Nat) (searchDays : Option Nat) (s : St) : OpRet (List Nat) :=
  let days := pyOrDefaultDays searchDays
  match mode with
  | .rest =>
    if env.restSearchOk then
      ⟨.ok ((restSearchRows queryAll s.box limit).map (·.mid)), s, [.rest]⟩
    else
      let r := searchImapPath env queryAll limit days s
      ⟨r.result, r.st, .rest :: r.trace⟩
  | .imap => searchImapPath env queryAll limit days s

end ZohoEmail

/-- The three bulk actions dispatched by `bulk_action` (lines 1548-1556
and 1617-1625). -/
inductive BulkAct
  | markRead
  | markUnread
  | delete
deriving DecidableEq

/-- Result shape of `bulk_action`: the success/failure partition of an
applied action, or the dry-run report with `total_found`, `to_process`,
the (at most 10 element) preview and the transport used. -/
inductive BulkOutcome
  | acted (r : BulkResult)
  | dry (totalFound toProcess : Nat) (preview : List Nat) (api : ApiMode)
deriving DecidableEq

/-- The action dispatch of `bulk_action`: calls back into the facade
mutators, which carry their own REST-first-then-IMAP logic. -/
def dispatchAction (act : BulkAct) (mode : ApiMode) (env : Env)
    (ids : List Nat) (s : St) : Except String BulkResult × St :=
  match act with
  | .markRead => ZohoEmail.mark_as_read mode env ids s
  | .markUnread => ZohoEmail.mark_as_unread mode env ids s
  | .delete => ZohoEmail.delete_emails mode env ids s

/-- The IMAP block of `ZohoEmail.bulk_action` (lines 1562-1629): connect,
`select(folder, readonly=True if dry_run else False)`, append `SINCE`
when `search_days > 0`, search all matching ids, record `total_found`,
apply the `[-limit:]` cap; in dry-run fetch a preview of the first 10
(failed fetches skipped) and return the report; otherwise disconnect and
dispatch the action on the capped ids.  The outer `finally` disconnects
whenever a connection is still held. -/
def bulkImapPath (mode : ApiMode) (env : Env) (act : BulkAct) (limit : Nat)
    (days : Nat) (dryRun : Bool) (s : St) : OpRet BulkOutcome :=
  if !env.imap.connectOk then
    ⟨.error "Failed to connect to IMAP", disconnect_imap s, [.imap]⟩
  else
    let s1 : St := { s with imapConn := true }
    if !env.imap.searchOk then
      ⟨.error "Search failed", disconnect_imap s1, [.imap]⟩
    else
      let withSince := decide (0 < days)
      let ids := (s.box.filter (imapQueryMatch false withSince days)).map (·.mid)
      let totalFound := ids.length
      let chosen := pyLastSlice limit ids
      if dryRun then
        let preview := (chosen.take 10).filter env.imap.fetchOk
        ⟨.ok (.dry totalFound chosen.length preview .imap), disconnect_imap s1, [.imap]⟩
      else
        match dispatchAction act mode env chosen (disconnect_imap s1) with
        | (.ok res, s3) =>
          ⟨.ok (.acted res), if s3.imapConn then disconnect_imap s3 else s3, [.imap]⟩
        | (.error e, s3) =>
          ⟨.error e, if s3.imapConn then disconnect_imap s3 else s3, [.imap]⟩

namespace ZohoEmail

/-- `ZohoEmail.bulk_action` (lines 1489-1629): in REST mode, translate
the query, search with the given `limit`, and either report the dry-run
preview (`total_found` and `to_process` are both the length of the
already-capped result) or dispatch the action on the found ids; any
exception in that block (including the `ValueError` raised by the
dispatch on an empty id list) falls through to the IMAP block.  In IMAP
mode only the IMAP block runs. -/
def bulk_action (mode : ApiMode) (env : Env) (act : BulkAct) (limit : Nat)
    (searchDays : Option Nat) (dryRun : Bool) (s : St) : OpRet BulkOutcome :=
  let days := pyOrDefaultDays searchDays
  match mode with
  | .rest =>
    if env.restSearchOk then
      let msgs := restSearchRows false s.box limit
      let totalFound := msgs.length
      if dryRun then
        ⟨.ok (.dry totalFound msgs.length ((msgs.take 10).map (·.mid)) .rest), s, [.rest]⟩
      else
        match dispatchAction act mode env (msgs.map (·.mid)) s with
        | (.ok res, s') => ⟨.ok (.acted res), s', [.rest]⟩
        | (.error _, s') =>
          let r2 := bulkImapPath mode env act limit days dryRun s'
          ⟨r2.result, r2.st, .rest :: r2.trace⟩
    else
      let r2 := bulkImapPath mode env act limit days dryRun s
      ⟨r2.result, r2.st, .rest :: r2.trace⟩
  | .imap => bulkImapPath mode env act limit days dryRun s

end ZohoEmail

/-! ## Query translators (lines 830-845 and 1454-1487)

Strings are handled as `List Char`.  `_convert_imap_search_to_rest` uses
`re.sub` with a fixed table of patterns of the two shapes
`KEYWORD\s+"([^"]+)"` and `KEYWORD\s+(\S+)` (case-insensitive, applied in
table order over the whole string, leftmost matches first, the
replacement never rescanned), then deletes `\s*SINCE\s+\S+`.  The
scanners below implement exactly these pattern shapes; they carry a fuel
argument initialised to the input length, which strictly bounds the scan
because every step consumes at least one character. -/

/-- Python `\s` on ASCII input. -/
def isWsChar (c : Char) : Bool :=
  c = ' ' || c = '\t' || c = '\n' || c = '\r' || c = '\x0b' || c = '\x0c'

/-- Case-insensitive character comparison (`re.IGNORECASE`). -/
def charEqCI (a b : Char) : Bool :=
  a.toLower = b.toLower

/-- Match the keyword case-insensitively at the head, returning the
remainder. -/
def matchCI : List Char → List Char → Option (List Char)
  | [], s => some s
  | _ :: _, [] => none
  | k :: ks, c :: cs => if charEqCI k c then matchCI ks cs else none

/-- Match `\s+"([^"]+)"`: at least one whitespace, then a quoted nonempty
run of non-quote characters; returns the captured content and the
remainder. -/
def matchWsQuoted (s : List Char) : Option (List Char × List Char) :=
  let ws := s.takeWhile isWsChar
  let r := s.dropWhile isWsChar
  if ws.isEmpty then none
  else
    match r with
    | '"' :: r2 =>
      let content := r2.takeWhile fun c => !(c = '"')
      let r3 := r2.dropWhile fun c => !(c = '"')
      if content.isEmpty then none
      else
        match r3 with
        | '"' :: r4 => some (content, r4)
        | _ => none
    | _ => none

/-- Match `\s+(\S+)`: at least one whitespace, then a maximal nonempty run
of non-whitespace; returns the captured word and the remainder. -/
def matchWsWord (s : List Char) : Option (List Char × List Char) :=
  let ws := s.takeWhile isWsChar
  let r := s.dropWhile isWsChar
  if ws.isEmpty then none
  else
    let w := r.takeWhile fun c => !isWsChar c
    let r2 := r.dropWhile fun c => !isWsChar c
    if w.isEmpty then none else some (w, r2)

/-- One `re.sub` pass for `KW\s+"([^"]+)"` with replacement
`rep ++ capture`. -/
def subPatQGo (kw rep : List Char) : Nat → List Char → List Char
  | _, [] => []
  | 0, s => s
  | fuel + 1, c :: cs =>
    match matchCI kw (c :: cs) with
    | some rest =>
      match matchWsQuoted rest with
      | some (content, rest2) => rep ++ content ++ subPatQGo kw rep fuel rest2
      | none => c :: subPatQGo kw rep fuel cs
    | none => c :: subPatQGo kw rep fuel cs

def subPatQ (kw rep s : List Char) : List Char :=
  subPatQGo kw rep s.length s

/-- One `re.sub` pass for `KW\s+(\S+)` with replacement
`rep ++ capture`. -/
def subPatWGo (kw rep : List Char) : Nat → List Char → List Char
  | _, [] => []
  | 0, s => s
  | fuel + 1, c :: cs =>
    match matchCI kw (c :: cs) with
    | some rest =>
      match matchWsWord rest with
      | some (word, rest2) => rep ++ word ++ subPatWGo kw rep fuel rest2
      | none => c :: subPatWGo kw rep fuel cs
    | none => c :: subPatWGo kw rep fuel cs

def subPatW (kw rep s : List Char) : List Char :=
  subPatWGo kw rep s.length s

/-- Try `\s*SINCE\s+\S+` at the current position, returning the remainder
after the deleted match. -/
def trySince (s : List Char) : Option (List Char) :=
  let r := s.dropWhile isWsChar
  match matchCI "SINCE".toList r with
  | some r2 =>
    match matchWsWord r2 with
    | some (_, r3) => some r3
    | none => none
  | none => none

/-- The `re.sub(r'\s*SINCE\s+\S+', '', query)` pass (line 1485). -/
def subSinceGo : Nat → List Char → List Char
  | _, [] => []
  | 0, s => s
  | fuel + 1, c :: cs =>
    match trySince (c :: cs) with
    | some rest => subSinceGo fuel rest
    | none => c :: subSinceGo fuel cs

def subSince (s : List Char) : List Char :=
  subSinceGo s.length s

/-- Python `str.strip(chars)`: remove the given characters from both
ends. -/
def stripChars (chars s : List Char) : List Char :=
  ((s.dropWhile (chars.contains ·)).reverse.dropWhile (chars.contains ·)).reverse

/-- Python `str.strip()`: remove whitespace from both ends. -/
def stripWs (s : List Char) : List Char :=
  ((s.dropWhile isWsChar).reverse.dropWhile isWsChar).reverse

namespace ZohoEmail

/-- The inline query translation of `search_emails` (lines 830-845), REST
branch: `ALL` means no search key; `SUBJECT "k"` becomes `subject:k`;
`FROM "k"` becomes `sender:k`; anything else becomes the full-text query
`entire:<query>`.  The captured keyword is the Python slice
`query[9:-1]` respectively `query[6:-1]`. -/
def searchQueryToRestInline (query : List Char) : Option (List Char) :=
  if query = "ALL".toList then none
  else if "SUBJECT \"".toList.isPrefixOf query && query.getLast? = some '"' then
    some ("subject:".toList ++ (query.drop 9).dropLast)
  else if "FROM \"".toList.isPrefixOf query && query.getLast? = some '"' then
    some ("sender:".toList ++ (query.drop 6).dropLast)
  else
    some ("entire:".toList ++ query)

/-- `ZohoEmail._convert_imap_search_to_rest` (lines 1454-1487):
`strip('() ')`, then the substitution table in insertion order
(`SUBJECT`, `FROM`, `TO` to their field keys, `BODY` and `TEXT` to
`entire:`, quoted form before unquoted form), then the `SINCE` removal,
then `strip()`.  Unmatched text passes through unchanged. -/
def convert_imap_search_to_rest (q : List Char) : List Char :=
  let q := stripChars "() ".toList q
  let q := subPatQ "SUBJECT".toList "subject:".toList q
  let q := subPatW "SUBJECT".toList "subject:".toList q
  let q := subPatQ "FROM".toList "from:".toList q
  let q := subPatW "FROM".toList "from:".toList q
  let q := subPatQ "TO".toList "to:".toList q
  let q := subPatW "TO".toList "to:".toList q
  let q := subPatQ "BODY".toList "entire:".toList q
  let q := subPatW "BODY".toList "entire:".toList q
  let q := subPatQ "TEXT".toList "entire:".toList q
  let q := subPatW "TEXT".toList "entire:".toList q
  let q := subSince q
  stripWs q

end ZohoEmail

/-! ## Concrete environments and the partition predicate -/

/-- Partition invariant of a bulk result against the requested id list:
`success ++ failed` is a permutation of the request and no id that
succeeded also appears among the failures. -/
def partitions (r : BulkResult) (ids : List Nat) : Prop :=
  List.Perm (r.success ++ r.failed) ids ∧ ∀ i ∈ r.success, i ∉ r.failed

/-- A REST oracle where every request succeeds. -/
def restEnvAllOk : RestEnv :=
  { accountOk := true
    folderFound := true
    markReadOutcome := .ok
    markUnreadOutcome := .ok
    moveOutcome := .ok
    deleteOutcome := fun _ => .ok }

/-- An IMAP oracle where every command succeeds. -/
def imapEnvAllOk : ImapEnv :=
  { connectOk := true
    searchOk := true
    expungeOk := true
    storeSeen := fun _ => .ok
    storeUnseen := fun _ => .ok
    storeDeleted := fun _ => .ok
    fetchOk := fun _ => true }

/-- A session oracle where every transport interaction succeeds. -/
def envAllOk : Env :=
  { rest := restEnvAllOk, restSearchOk := true, imap := imapEnvAllOk }

/-- A session oracle where both transports are down: the REST search
raises and the IMAP connection cannot be established. -/
def envAllFail : Env :=
  { rest := { restEnvAllOk with accountOk := false }
    restSearchOk := false
    imap := { imapEnvAllOk with connectOk := false } }

/-- A REST oracle whose per-message DELETE succeeds for message 1 and
returns a non-200 status for every other message. -/
def restEnvDeleteMixed : RestEnv :=
  { restEnvAllOk with deleteOutcome := fun i => if i = 1 then .ok else .badStatus }

/-- A folder of 120 messages, ids 1 to 120, all unread, all matching the
bulk query, all received today. -/
def mk120 : Mailbox :=
  (List.range 120).map fun i => ⟨i + 1, false, false, true, 0⟩

/-- Decidable equality on raised-or-returned values, used to evaluate the
embeddings at concrete inputs. -/
instance exceptDecEq {ε α : Type} [DecidableEq ε] [DecidableEq α] :
    DecidableEq (Except ε α)
  | .ok a, .ok b =>
    if h : a = b then .isTrue (by rw [h]) else .isFalse (by simp [h])
  | .error a, .error b =>
    if h : a = b then .isTrue (by rw [h]) else .isFalse (by simp [h])
  | .ok _, .error _ => .isFalse (by simp)
  | .error _, .ok _ => .isFalse (by simp)

/-! ## Helper lemmas -/

theorem imapStoreLoop_success_eq (store : Nat → StoreOutcome)
    (eff : Nat → Mailbox → Mailbox) (ids : List Nat) (box : Mailbox) :
    (imapStoreLoop store eff ids box).1.success =
      ids.filter fun i => store i == StoreOutcome.ok := by
  induction ids generalizing box with
  | nil => simp [imapStoreLoop]
  | cons i rest ih =>
    cases h : store i <;> simp [imapStoreLoop, h, ih]

theorem imapStoreLoop_failed_eq (store : Nat → StoreOutcome)
    (eff : Nat → Mailbox → Mailbox) (ids : List Nat) (box : Mailbox) :
    (imapStoreLoop store eff ids box).1.failed =
      ids.filter fun i => !(store i == StoreOutcome.ok) := by
  induction ids generalizing box with
  | nil => simp [imapStoreLoop]
  | cons i rest ih =>
    cases h : store i <;> simp [imapStoreLoop, h, ih]

theorem partitions_filter (ids : List Nat) (p : Nat → Bool) :
    partitions ⟨ids.filter p, ids.filter fun i => !p i⟩ ids := by
  refine ⟨List.filter_append_perm p ids, ?_⟩
  intro i hs hf
  have h1 := List.of_mem_filter hs
  have h2 := List.of_mem_filter hf
  simp [h1] at h2

theorem partitions_all_success (ids : List Nat) : partitions ⟨ids, []⟩ ids := by
  refine ⟨by simp, by simp⟩

theorem partitions_all_failed (ids : List Nat) : partitions ⟨[], ids⟩ ids := by
  refine ⟨by simp, by simp⟩

theorem imapStoreLoop_partitions (store : Nat → StoreOutcome)
    (eff : Nat → Mailbox → Mailbox) (ids : List Nat) (box : Mailbox) :
    partitions (imapStoreLoop store eff ids box).1 ids := by
  have hs := imapStoreLoop_success_eq store eff ids box
  have hf := imapStoreLoop_failed_eq store eff ids box
  have := partitions_filter ids fun i => store i == StoreOutcome.ok
  rw [← hs, ← hf] at this
  exact this

theorem imapStoreOp_ok_partitions (env : ImapEnv) (store : Nat → StoreOutcome)
    (eff : Nat → Mailbox → Mailbox) (de : Bool) (ids : List Nat) (s : St)
    (r : BulkResult) (s' : St)
    (h : imapStoreOp env store eff de ids s = (.ok r, s')) :
    partitions r ids := by
  unfold imapStoreOp at h
  split at h
  · simp at h
  · split at h
    · split at h
      · have : r = (imapStoreLoop store eff ids s.box).1 := by
          simp at h
          exact h.1.symm
        rw [this]
        exact imapStoreLoop_partitions _ _ _ _
      · simp at h
    · have : r = (imapStoreLoop store eff ids s.box).1 := by
        simp at h
        exact h.1.symm
      rw [this]
      exact imapStoreLoop_partitions _ _ _ _

theorem rest_mark_as_read_ok (env : RestEnv) (ids : List Nat) (box : Mailbox)
    (r : BulkResult)
    (h : (ZohoRestAPIClient.mark_as_read env ids box).result = .ok r) :
    r = ⟨ids, []⟩ ∨ r = ⟨[], ids⟩ := by
  unfold ZohoRestAPIClient.mark_as_read at h
  split at h
  · left
    simp at h
    simp [← h]
    simpa using List.isEmpty_iff.mp (by assumption)
  · split at h
    · simp at h
    · split at h <;> simp_all

theorem rest_mark_as_unread_ok (env : RestEnv) (ids : List Nat) (box : Mailbox)
    (r : BulkResult)
    (h : (ZohoRestAPIClient.mark_as_unread env ids box).result = .ok r) :
    r = ⟨ids, []⟩ ∨ r = ⟨[], ids⟩ := by
  unfold ZohoRestAPIClient.mark_as_unread at h
  split at h
  · left
    simp at h
    simp [← h]
    simpa using List.isEmpty_iff.mp (by assumption)
  · split at h
    · simp at h
    · split at h <;> simp_all

theorem rest_move_messages_ok (env : RestEnv) (ids : List Nat) (box : Mailbox)
    (r : BulkResult)
    (h : (ZohoRestAPIClient.move_messages env ids box).result = .ok r) :
    r = ⟨ids, []⟩ ∨ r = ⟨[], ids⟩ := by
  unfold ZohoRestAPIClient.move_messages at h
  split at h
  · left
    simp at h
    simp [← h]
    simpa using List.isEmpty_iff.mp (by assumption)
  · split at h
    · simp at h
    · split at h
      · simp_all
      · split at h <;> simp_all

theorem rest_deleteLoop_success_eq (out : Nat → RestOutcome) (ids : List Nat)
    (box : Mailbox) :
    (ZohoRestAPIClient.deleteLoop out ids box).1.success =
      ids.filter fun i => out i == RestOutcome.ok := by
  induction ids generalizing box with
  | nil => simp [ZohoRestAPIClient.deleteLoop]
  | cons i rest ih =>
    cases h : out i <;> simp [ZohoRestAPIClient.deleteLoop, h, ih]

theorem rest_deleteLoop_failed_eq (out : Nat → RestOutcome) (ids : List Nat)
    (box : Mailbox) :
    (ZohoRestAPIClient.deleteLoop out ids box).1.failed =
      ids.filter fun i => !(out i == RestOutcome.ok) := by
  induction ids generalizing box with
  | nil => simp [ZohoRestAPIClient.deleteLoop]
  | cons i rest ih =>
    cases h : out i <;> simp [ZohoRestAPIClient.deleteLoop, h, ih]

theorem rest_delete_messages_ok (env : RestEnv) (ids : List Nat) (box : Mailbox)
    (r : BulkResult)
    (h : (ZohoRestAPIClient.delete_messages env ids box).result = .ok r) :
    partitions r ids := by
  unfold ZohoRestAPIClient.delete_messages at h
  split at h
  · simp at h
    rw [← h]
    have he := List.isEmpty_iff.mp (by assumption)
    subst he
    exact partitions_filter [] fun _ => true
  · split at h
    · simp at h
    · split at h
      · simp at h
        rw [← h]
        exact partitions_all_failed ids
      · simp at h
        rw [← h]
        have hs := rest_deleteLoop_success_eq env.deleteOutcome ids box
        have hf := rest_deleteLoop_failed_eq env.deleteOutcome ids box
        have hp := partitions_filter ids fun i => env.deleteOutcome i == RestOutcome.ok
        rw [← hs, ← hf] at hp
        exact hp

theorem facade_mark_as_read_partitions (mode : ApiMode) (env : Env)
    (ids : List Nat) (s : St) (r : BulkResult) (s' : St)
    (h : ZohoEmail.mark_as_read mode env ids s = (.ok r, s')) :
    partitions r ids := by
  unfold ZohoEmail.mark_as_read at h
  split at h
  · simp at h
  · cases mode with
    | rest =>
      simp only at h
      split at h
      · rename_i res heq
        have hok : (ZohoRestAPIClient.mark_as_read env.rest ids s.box).result = .ok res := heq
        have := rest_mark_as_read_ok env.rest ids s.box res hok
        simp at h
        rcases this with h1 | h1 <;> rw [← h.1, h1]
        · exact partitions_all_success ids
        · exact partitions_all_failed ids
      · exact imapStoreOp_ok_partitions _ _ _ _ _ _ _ _ h
    | imap =>
      exact imapStoreOp_ok_partitions _ _ _ _ _ _ _ _ h

theorem facade_mark_as_unread_partitions (mode : ApiMode) (env : Env)
    (ids : List Nat) (s : St) (r : BulkResult) (s' : St)
    (h : ZohoEmail.mark_as_unread mode env ids s = (.ok r, s')) :
    partitions r ids := by
  unfold ZohoEmail.mark_as_unread at h
  split at h
  · simp at h
  · cases mode with
    | rest =>
      simp only at h
      split at h
      · rename_i res heq
        have hok : (ZohoRestAPIClient.mark_as_unread env.rest ids s.box).result = .ok res := heq
        have := rest_mark_as_unread_ok env.rest ids s.box res hok
        simp at h
        rcases this with h1 | h1 <;> rw [← h.1, h1]
        · exact partitions_all_success ids
        · exact partitions_all_failed ids
      · exact imapStoreOp_ok_partitions _ _ _ _ _ _ _ _ h
    | imap =>
      exact imapStoreOp_ok_partitions _ _ _ _ _ _ _ _ h

theorem facade_delete_emails_partitions (mode : ApiMode) (env : Env)
    (ids : List Nat) (s : St) (r : BulkResult) (s' : St)
    (h : ZohoEmail.delete_emails mode env ids s = (.ok r, s')) :
    partitions r ids := by
  unfold ZohoEmail.delete_emails at h
  split at h
  · simp at h
  · cases mode with
    | rest =>
      simp only at h
      split at h
      · rename_i res heq
        have hok : (ZohoRestAPIClient.delete_messages env.rest ids s.box).result = .ok res := heq
        have := rest_delete_messages_ok env.rest ids s.box res hok
        simp at h
        rw [← h.1]
        exact this
      · exact imapStoreOp_ok_partitions _ _ _ _ _ _ _ _ h
    | imap =>
      exact imapStoreOp_ok_partitions _ _ _ _ _ _ _ _ h

/-! ## Claim theorems -/

/-- C1 (amended): for every nonempty requested id list, any bulk result
returned by the facade operations mark-read, mark-unread and delete
partitions the request: `success ++ failed` is a permutation of the ids
and no id appears in both lists; for an empty id list the REST client
methods return the empty result without issuing any transport request,
but the facade-level operations raise `ValueError` instead of returning
an empty result. -/
theorem C1_bulk_partition_amended :
    (∀ (mode : ApiMode) (env : Env) (ids : List Nat) (s : St) (r : BulkResult) (s' : St),
       ZohoEmail.mark_as_read mode env ids s = (.ok r, s') → partitions r ids) ∧
    (∀ (mode : ApiMode) (env : Env) (ids : List Nat) (s : St) (r : BulkResult) (s' : St),
       ZohoEmail.mark_as_unread mode env ids s = (.ok r, s') → partitions r ids) ∧
    (∀ (mode : ApiMode) (env : Env) (ids : List Nat) (s : St) (r : BulkResult) (s' : St),
       ZohoEmail.delete_emails mode env ids s = (.ok r, s') → partitions r ids) ∧
    (∀ (env : RestEnv) (box : Mailbox),
       ZohoRestAPIClient.mark_as_read env [] box = ⟨.ok ⟨[], []⟩, box, false⟩ ∧
       ZohoRestAPIClient.mark_as_unread env [] box = ⟨.ok ⟨[], []⟩, box, false⟩ ∧
       ZohoRestAPIClient.delete_messages env [] box = ⟨.ok ⟨[], []⟩, box, false⟩) ∧
    (∀ (mode : ApiMode) (env : Env) (s : St),
       (ZohoEmail.mark_as_read mode env [] s).1 = .error "email_ids list cannot be empty" ∧
       (ZohoEmail.mark_as_unread mode env [] s).1 = .error "email_ids list cannot be empty" ∧
       (ZohoEmail.delete_emails mode env [] s).1 = .error "email_ids list cannot be empty") := by
  refine ⟨?_, ?_, ?_, ?_, ?_⟩
  · intro mode env ids s r s' h
    exact facade_mark_as_read_partitions mode env ids s r s' h
  · intro mode env ids s r s' h
    exact facade_mark_as_unread_partitions mode env ids s r s' h
  · intro mode env ids s r s' h
    exact facade_delete_emails_partitions mode env ids s r s' h
  · intro env box
    refine ⟨rfl, rfl, rfl⟩
  · intro mode env s
    refine ⟨rfl, rfl, rfl⟩

/-- C1 counterexample: the claim asserts that a bulk action over the
empty id set returns the empty result; the facade operation instead
raises `ValueError("email_ids list cannot be empty")`. -/
theorem C1_counterexample :
    (ZohoEmail.mark_as_read .imap envAllOk [] ⟨[], false⟩).1 =
        .error "email_ids list cannot be empty" ∧
    (ZohoEmail.mark_as_read .imap envAllOk [] ⟨[], false⟩).1 ≠
        .ok ⟨[], []⟩ := by
  refine ⟨rfl, by decide⟩

/-- C1 witness: the partition theorem applied to a concrete mark-read
call over ids `[1, 2]`. -/
theorem C1_witness : partitions ⟨[1, 2], []⟩ [1, 2] :=
  C1_bulk_partition_amended.1 .imap envAllOk [1, 2] ⟨[], false⟩ ⟨[1, 2], []⟩
    ⟨[], false⟩ (by decide)

/-- C10: for a non-empty id list the REST client operations mark-read,
mark-unread and move are all-or-nothing (the returned result is either
all ids in `success` or all ids in `failed`, never a mixed split), while
delete records success or failure per individual id (its result is the
pointwise partition by the per-message outcome whenever the account and
folder lookups succeed). -/
theorem C10_rest_all_or_nothing :
    ∀ (env : RestEnv) (ids : List Nat) (box : Mailbox),
      ids ≠ [] →
      (∀ r, (ZohoRestAPIClient.mark_as_read env ids box).result = .ok r →
         r = ⟨ids, []⟩ ∨ r = ⟨[], ids⟩) ∧
      (∀ r, (ZohoRestAPIClient.mark_as_unread env ids box).result = .ok r →
         r = ⟨ids, []⟩ ∨ r = ⟨[], ids⟩) ∧
      (∀ r, (ZohoRestAPIClient.move_messages env ids box).result = .ok r →
         r = ⟨ids, []⟩ ∨ r = ⟨[], ids⟩) ∧
      (env.accountOk = true → env.folderFound = true →
         (ZohoRestAPIClient.delete_messages env ids box).result =
           .ok ⟨ids.filter fun i => env.deleteOutcome i == RestOutcome.ok,
                ids.filter fun i => !(env.deleteOutcome i == RestOutcome.ok)⟩) := by
  intro env ids box hne
  refine ⟨fun r h => rest_mark_as_read_ok env ids box r h,
          fun r h => rest_mark_as_unread_ok env ids box r h,
          fun r h => rest_move_messages_ok env ids box r h, ?_⟩
  intro ha hf
  have hne' : ids.isEmpty = false := by
    cases ids with
    | nil => exact absurd rfl hne
    | cons a l => rfl
  have hs := rest_deleteLoop_success_eq env.deleteOutcome ids box
  have hfl := rest_deleteLoop_failed_eq env.deleteOutcome ids box
  unfold ZohoRestAPIClient.delete_messages
  simp only [hne', ha, hf]
  cases hdl : ZohoRestAPIClient.deleteLoop env.deleteOutcome ids box with
  | mk r box' =>
    rw [hdl] at hs hfl
    cases r with
    | mk sx fx =>
      simp at hs hfl ⊢
      exact ⟨hs, hfl⟩

/-- C10 witness: with a per-message oracle where message 1 deletes
successfully and message 2 does not, the REST delete over `[1, 2]`
returns the mixed split `success = [1]`, `failed = [2]` (which the
all-or-nothing operations can never produce). -/
theorem C10_witness :
    (ZohoRestAPIClient.delete_messages restEnvDeleteMixed [1, 2] []).result =
      .ok ⟨[1], [2]⟩ := by
  have h := (C10_rest_all_or_nothing restEnvDeleteMixed [1, 2] [] (by decide)).2.2.2
    rfl rfl
  exact h.trans (by decide)

/-- C2: for every credential record carrying `created_at` and
`expires_in`, `is_token_expired` returns true exactly when
`now >= created_at + expires_in - 300`; with `created_at = T` and
`expires_in = 3600` it is false at `T + 3299` and true at `T + 3300` and
`T + 3301`, flipping exactly when 300 seconds of validity remain. -/
theorem C2_expiry_margin :
    (∀ (cid cs ak rt : String) (em : Option String) (c e now : Int),
       is_token_expired ⟨cid, cs, ak, rt, em, some e, some c⟩ now = true ↔
         c + e - 300 ≤ now) ∧
    (∀ T : Int,
       is_token_expired ⟨"", "", "", "", none, some 3600, some T⟩ (T + 3299) = false ∧
       is_token_expired ⟨"", "", "", "", none, some 3600, some T⟩ (T + 3300) = true ∧
       is_token_expired ⟨"", "", "", "", none, some 3600, some T⟩ (T + 3301) = true) := by
  constructor
  · intro cid cs ak rt em c e now
    simp [is_token_expired]
  · intro T
    refine ⟨?_, ?_, ?_⟩ <;> simp [is_token_expired] <;> omega

/-- C7: a successful token refresh yields a record with the response's
`access_token` and `expires_in`, `created_at` set to the current time,
the `refresh_token` replaced only when the response contains one (kept
unchanged otherwise), and the updated record persisted to the token
file. -/
theorem C7_refresh_updates :
    ∀ (st : TokenSt) (r : RefreshResponse) (now : Int) (st' : TokenSt),
      ZohoEmail.refresh_token .oauth2 st (.ok r) now = .ok st' →
      st'.tokens.access_token = r.access_token ∧
      st'.tokens.expires_in = some r.expires_in ∧
      st'.tokens.created_at = some now ∧
      (r.refresh_token = none →
        st'.tokens.refresh_token = st.tokens.refresh_token) ∧
      (∀ x, r.refresh_token = some x → st'.tokens.refresh_token = x) ∧
      st'.tokens.client_id = st.tokens.client_id ∧
      st'.tokens.client_secret = st.tokens.client_secret ∧
      st'.file = some st'.tokens := by
  intro st r now st' h
  have h' : st' = { tokens := refresh_token_update st.tokens r now,
                    file := some (refresh_token_update st.tokens r now) } := by
    simpa [ZohoEmail.refresh_token] using h.symm
  subst h'
  refine ⟨rfl, rfl, rfl, ?_, ?_, rfl, rfl, rfl⟩
  · intro hn
    simp [refresh_token_update, hn]
  · intro x hx
    simp [refresh_token_update, hx]

/-- C7 witness: the theorem applied to a concrete refresh whose response
omits the rotated refresh token; the old refresh token is retained, the
new access token and expiry are taken, and the file holds the updated
record. -/
theorem C7_witness :
    ((⟨⟨"id", "sec", "tok2", "ref", none, some 3600, some 1000⟩,
       some ⟨"id", "sec", "tok2", "ref", none, some 3600, some 1000⟩⟩ :
        TokenSt).tokens.access_token = "tok2") ∧
    ((⟨⟨"id", "sec", "tok2", "ref", none, some 3600, some 1000⟩,
       some ⟨"id", "sec", "tok2", "ref", none, some 3600, some 1000⟩⟩ :
        TokenSt).tokens.refresh_token = "ref") := by
  have h := C7_refresh_updates
    ⟨⟨"id", "sec", "tok1", "ref", none, some 100, some 5⟩, none⟩
    ⟨"tok2", none, 3600⟩ 1000
    ⟨⟨"id", "sec", "tok2", "ref", none, some 3600, some 1000⟩,
     some ⟨"id", "sec", "tok2", "ref", none, some 3600, some 1000⟩⟩
    (by decide)
  exact ⟨h.1, h.2.2.2.1 rfl⟩

/-- C8: explicit REST transport with password authentication fails at
construction with the UnsupportedCombination error and zero network
calls; explicit REST with OAuth2 but without the `requests` library
fails with the MissingDependency error; and under automatic transport
selection a throwing REST-client constructor silently downgrades the
session to IMAP instead of failing construction. -/
theorem C8_selector_boundaries :
    (∀ env : InitEnv, env.envEmail = true → env.envPassword = true →
       ZohoEmail.init .password .rest env = (.error .unsupportedCombination, 0)) ∧
    (∀ env : InitEnv, env.tokenFileExists = false → env.envEmail = true →
       env.envPassword = true →
       ZohoEmail.init .auto .rest env = (.error .unsupportedCombination, 0)) ∧
    (∀ env : InitEnv, env.tokenLoadOk = true → env.tokenExpiredAtStart = false →
       env.hasRequests = false →
       ZohoEmail.init .oauth2 .rest env = (.error .missingDependency, 0)) ∧
    (∀ env : InitEnv, env.tokenLoadOk = true → env.tokenExpiredAtStart = false →
       env.hasRequests = true → env.restClientOk = false →
       ZohoEmail.init .oauth2 .auto env = (.ok ⟨.oauth2, .imap⟩, 0)) := by
  refine ⟨?_, ?_, ?_, ?_⟩
  · intro env he hp
    simp [ZohoEmail.init, ZohoEmail.resolveAuth, ZohoEmail.setupAuth,
      ZohoEmail.resolveApiMode, he, hp]
  · intro env ht he hp
    simp [ZohoEmail.init, ZohoEmail.resolveAuth, ZohoEmail.setupAuth,
      ZohoEmail.resolveApiMode, ht, he, hp]
  · intro env hl hx hr
    simp [ZohoEmail.init, ZohoEmail.resolveAuth, ZohoEmail.setupAuth,
      ZohoEmail.resolveApiMode, hl, hx, hr]
  · intro env hl hx hr hc
    simp [ZohoEmail.init, ZohoEmail.resolveAuth, ZohoEmail.setupAuth,
      ZohoEmail.resolveApiMode, hl, hx, hr, hc]

/-- C8 witness: the three boundaries at concrete environments — password
plus explicit REST is rejected with no network call, missing library is
rejected, and a failing REST constructor downgrades an auto session to
IMAP. -/
theorem C8_witness :
    ZohoEmail.init .password .rest
        ⟨false, true, true, true, false, false, false, false⟩ =
      (.error .unsupportedCombination, 0) ∧
    ZohoEmail.init .oauth2 .rest
        ⟨true, false, false, false, true, false, false, false⟩ =
      (.error .missingDependency, 0) ∧
    ZohoEmail.init .oauth2 .auto
        ⟨true, false, false, true, true, false, false, false⟩ =
      (.ok ⟨.oauth2, .imap⟩, 0) :=
  ⟨C8_selector_boundaries.1 ⟨false, true, true, true, false, false, false, false⟩ rfl rfl,
   C8_selector_boundaries.2.2.1 ⟨true, false, false, false, true, false, false, false⟩ rfl rfl rfl,
   C8_selector_boundaries.2.2.2 ⟨true, false, false, true, true, false, false, false⟩ rfl rfl rfl rfl⟩

theorem imapStoreOp_conn (env : ImapEnv) (store : Nat → StoreOutcome)
    (eff : Nat → Mailbox → Mailbox) (de : Bool) (ids : List Nat) (s : St) :
    (imapStoreOp env store eff de ids s).2.imapConn = false := by
  unfold imapStoreOp
  split
  · rfl
  · split
    · split <;> rfl
    · rfl

theorem mark_as_read_conn (mode : ApiMode) (env : Env) (ids : List Nat)
    (s : St) (h : s.imapConn = false) :
    (ZohoEmail.mark_as_read mode env ids s).2.imapConn = false := by
  unfold ZohoEmail.mark_as_read
  split
  · exact h
  · cases mode with
    | rest =>
      simp only
      split
      · exact h
      · exact imapStoreOp_conn _ _ _ _ _ _
    | imap => exact imapStoreOp_conn _ _ _ _ _ _

theorem mark_as_unread_conn (mode : ApiMode) (env : Env) (ids : List Nat)
    (s : St) (h : s.imapConn = false) :
    (ZohoEmail.mark_as_unread mode env ids s).2.imapConn = false := by
  unfold ZohoEmail.mark_as_unread
  split
  · exact h
  · cases mode with
    | rest =>
      simp only
      split
      · exact h
      · exact imapStoreOp_conn _ _ _ _ _ _
    | imap => exact imapStoreOp_conn _ _ _ _ _ _

theorem delete_emails_conn (mode : ApiMode) (env : Env) (ids : List Nat)
    (s : St) (h : s.imapConn = false) :
    (ZohoEmail.delete_emails mode env ids s).2.imapConn = false := by
  unfold ZohoEmail.delete_emails
  split
  · exact h
  · cases mode with
    | rest =>
      simp only
      split
      · exact h
      · exact imapStoreOp_conn _ _ _ _ _ _
    | imap => exact imapStoreOp_conn _ _ _ _ _ _

theorem dispatchAction_conn (act : BulkAct) (mode : ApiMode) (env : Env)
    (ids : List Nat) (s : St) (h : s.imapConn = false) :
    (dispatchAction act mode env ids s).2.imapConn = false := by
  cases act with
  | markRead => exact mark_as_read_conn mode env ids s h
  | markUnread => exact mark_as_unread_conn mode env ids s h
  | delete => exact delete_emails_conn mode env ids s h

theorem searchImapPath_conn (env : Env) (qa : Bool) (limit days : Nat) (s : St) :
    (searchImapPath env qa limit days s).st.imapConn = false := by
  unfold searchImapPath
  split
  · rfl
  · split <;> rfl

theorem bulkImapPath_conn (mode : ApiMode) (env : Env) (act : BulkAct)
    (limit days : Nat) (dry : Bool) (s : St) :
    (bulkImapPath mode env act limit days dry s).st.imapConn = false := by
  unfold bulkImapPath
  split
  · rfl
  · split
    · rfl
    · split
      · rfl
      · dsimp only
        split
        · split
          · rfl
          · simp_all
        · split
          · rfl
          · simp_all

theorem search_emails_conn (mode : ApiMode) (env : Env) (qa : Bool)
    (limit : Nat) (days : Option Nat) (s : St) (h : s.imapConn = false) :
    (ZohoEmail.search_emails mode env qa limit days s).st.imapConn = false := by
  unfold ZohoEmail.search_emails
  cases mode with
  | rest =>
    simp only
    split
    · exact h
    · exact searchImapPath_conn _ _ _ _ _
  | imap => exact searchImapPath_conn _ _ _ _ _

theorem bulk_action_conn (mode : ApiMode) (env : Env) (act : BulkAct)
    (limit : Nat) (days : Option Nat) (dry : Bool) (s : St)
    (h : s.imapConn = false) :
    (ZohoEmail.bulk_action mode env act limit days dry s).st.imapConn = false := by
  unfold ZohoEmail.bulk_action
  cases mode with
  | rest =>
    simp only
    split
    · split
      · exact h
      · split
        · rename_i res s' heq
          have := dispatchAction_conn act .rest env
            ((restSearchRows false s.box limit).map (fun x => x.mid)) s h
          rw [heq] at this
          exact this
        · exact bulkImapPath_conn _ _ _ _ _ _ _
    · exact bulkImapPath_conn _ _ _ _ _ _ _
  | imap => exact bulkImapPath_conn _ _ _ _ _ _ _

/-- C9: every embedded facade operation that can acquire an IMAP
connection (search, mark-read, mark-unread, delete, bulk action) releases
it on every exit path, success or error: starting from a facade holding
no connection, no operation ever ends holding one. -/
theorem C9_imap_release :
    (∀ (mode : ApiMode) (env : Env) (qa : Bool) (limit : Nat)
       (days : Option Nat) (s : St), s.imapConn = false →
       (ZohoEmail.search_emails mode env qa limit days s).st.imapConn = false) ∧
    (∀ (mode : ApiMode) (env : Env) (ids : List Nat) (s : St),
       s.imapConn = false →
       (ZohoEmail.mark_as_read mode env ids s).2.imapConn = false) ∧
    (∀ (mode : ApiMode) (env : Env) (ids : List Nat) (s : St),
       s.imapConn = false →
       (ZohoEmail.mark_as_unread mode env ids s).2.imapConn = false) ∧
    (∀ (mode : ApiMode) (env : Env) (ids : List Nat) (s : St),
       s.imapConn = false →
       (ZohoEmail.delete_emails mode env ids s).2.imapConn = false) ∧
    (∀ (mode : ApiMode) (env : Env) (act : BulkAct) (limit : Nat)
       (days : Option Nat) (dry : Bool) (s : St), s.imapConn = false →
       (ZohoEmail.bulk_action mode env act limit days dry s).st.imapConn = false) :=
  ⟨fun mode env qa limit days s h => search_emails_conn mode env qa limit days s h,
   fun mode env ids s h => mark_as_read_conn mode env ids s h,
   fun mode env ids s h => mark_as_unread_conn mode env ids s h,
   fun mode env ids s h => delete_emails_conn mode env ids s h,
   fun mode env act limit days dry s h => bulk_action_conn mode env act limit days dry s h⟩

/-- C9 witness: a concrete failing bulk delete (both transports down)
still ends with no IMAP connection held. -/
theorem C9_witness :
    (ZohoEmail.bulk_action .rest envAllFail .delete 5 none false
        ⟨mk120, false⟩).st.imapConn = false :=
  C9_imap_release.2.2.2.2 .rest envAllFail .delete 5 none false ⟨mk120, false⟩ rfl

theorem searchImapPath_trace (env : Env) (qa : Bool) (limit days : Nat) (s : St) :
    (searchImapPath env qa limit days s).trace = [Attempt.imap] := by
  unfold searchImapPath
  split
  · rfl
  · split <;> rfl

theorem bulkImapPath_trace (mode : ApiMode) (env : Env) (act : BulkAct)
    (limit days : Nat) (dry : Bool) (s : St) :
    (bulkImapPath mode env act limit days dry s).trace = [Attempt.imap] := by
  unfold bulkImapPath
  split
  · rfl
  · split
    · rfl
    · split
      · rfl
      · dsimp only
        split <;> rfl

/-- C4: per facade call, in IMAP mode only the IMAP transport is ever
attempted (a transport failure propagates with no second-transport
attempt), while in REST mode the REST block runs first and, exactly when
it does not return, one IMAP attempt follows; in particular any surfaced
failure of a REST-mode call has attempted REST first and IMAP exactly
once.  Shown for `search_emails` and `bulk_action`. -/
theorem C4_fallback_boundary :
    (∀ (env : Env) (qa : Bool) (limit : Nat) (days : Option Nat) (s : St),
       (ZohoEmail.search_emails .imap env qa limit days s).trace = [Attempt.imap]) ∧
    (∀ (env : Env) (qa : Bool) (limit : Nat) (days : Option Nat) (s : St),
       (ZohoEmail.search_emails .rest env qa limit days s).trace = [Attempt.rest] ∨
       (ZohoEmail.search_emails .rest env qa limit days s).trace =
         [Attempt.rest, Attempt.imap]) ∧
    (∀ (env : Env) (qa : Bool) (limit : Nat) (days : Option Nat) (s : St)
       (e : String),
       (ZohoEmail.search_emails .rest env qa limit days s).result = .error e →
       (ZohoEmail.search_emails .rest env qa limit days s).trace =
         [Attempt.rest, Attempt.imap]) ∧
    (∀ (env : Env) (act : BulkAct) (limit : Nat) (days : Option Nat)
       (dry : Bool) (s : St),
       (ZohoEmail.bulk_action .imap env act limit days dry s).trace = [Attempt.imap]) ∧
    (∀ (env : Env) (act : BulkAct) (limit : Nat) (days : Option Nat)
       (dry : Bool) (s : St),
       (ZohoEmail.bulk_action .rest env act limit days dry s).trace = [Attempt.rest] ∨
       (ZohoEmail.bulk_action .rest env act limit days dry s).trace =
         [Attempt.rest, Attempt.imap]) ∧
    (∀ (env : Env) (act : BulkAct) (limit : Nat) (days : Option Nat)
       (dry : Bool) (s : St) (e : String),
       (ZohoEmail.bulk_action .rest env act limit days dry s).result = .error e →
       (ZohoEmail.bulk_action .rest env act limit days dry s).trace =
         [Attempt.rest, Attempt.imap]) := by
  refine ⟨?_, ?_, ?_, ?_, ?_, ?_⟩
  · intro env qa limit days s
    unfold ZohoEmail.search_emails
    exact searchImapPath_trace _ _ _ _ _
  · intro env qa limit days s
    unfold ZohoEmail.search_emails
    simp only
    split
    · left
      rfl
    · right
      simp [searchImapPath_trace]
  · intro env qa limit days s e h
    unfold ZohoEmail.search_emails at h ⊢
    simp only at h ⊢
    split at h
    · simp at h
    · simp_all [searchImapPath_trace]
  · intro env act limit days dry s
    unfold ZohoEmail.bulk_action
    exact bulkImapPath_trace _ _ _ _ _ _ _
  · intro env act limit days dry s
    unfold ZohoEmail.bulk_action
    simp only
    split
    · split
      · left
        rfl
      · split
        · left
          rfl
        · right
          simp [bulkImapPath_trace]
    · right
      simp [bulkImapPath_trace]
  · intro env act limit days dry s e h
    unfold ZohoEmail.bulk_action at h ⊢
    simp only at h ⊢
    split at h
    · split at h
      · simp at h
      · split at h
        · simp_all
        · simp_all [bulkImapPath_trace]
    · simp_all [bulkImapPath_trace]

/-- C4 witness: with both transports down, a REST-mode search and a
REST-mode bulk action surface a failure having attempted REST first and
then IMAP exactly once. -/
theorem C4_witness :
    (ZohoEmail.search_emails .rest envAllFail false 10 none ⟨[], false⟩).trace =
        [Attempt.rest, Attempt.imap] ∧
    (ZohoEmail.bulk_action .rest envAllFail .markRead 10 none false
        ⟨[], false⟩).trace = [Attempt.rest, Attempt.imap] :=
  ⟨C4_fallback_boundary.2.2.1 envAllFail false 10 none ⟨[], false⟩
      "Failed to connect to IMAP" (by decide),
   C4_fallback_boundary.2.2.2.2.2 envAllFail .markRead 10 none false ⟨[], false⟩
      "Failed to connect to IMAP" (by decide)⟩

theorem bulkImapPath_dry (mode : ApiMode) (env : Env) (act : BulkAct)
    (limit days : Nat) (s : St) (h : s.imapConn = false) :
    (bulkImapPath mode env act limit days true s).st = s ∧
    ∀ res, (bulkImapPath mode env act limit days true s).result = .ok res →
      ∃ tf tp pv, res = .dry tf tp pv .imap ∧ pv.length ≤ 10 := by
  obtain ⟨b, c⟩ := s
  simp only at h
  subst h
  unfold bulkImapPath
  split
  · refine ⟨rfl, ?_⟩
    intro res hres
    simp at hres
  · split
    · refine ⟨rfl, ?_⟩
      intro res hres
      simp at hres
    · split
      · refine ⟨rfl, ?_⟩
        intro res hres
        simp only [Except.ok.injEq] at hres
        refine ⟨_, _, _, hres.symm, ?_⟩
        refine le_trans (List.length_filter_le _ _) ?_
        rw [List.length_take]
        exact min_le_left _ _
      · rename_i hd
        exact absurd rfl hd

/-- C3: a dry-run bulk action never mutates the mailbox and never holds a
connection afterwards (the post-state equals the pre-state), its
successful result is always a dry-run report whose preview holds at most
10 messages, and repeating the dry run against the unchanged mailbox
returns the identical result (hence identical `total_found` and
`to_process`). -/
theorem C3_dry_run_purity :
    ∀ (mode : ApiMode) (env : Env) (act : BulkAct) (limit : Nat)
      (days : Option Nat) (s : St), s.imapConn = false →
      (ZohoEmail.bulk_action mode env act limit days true s).st = s ∧
      (∀ res, (ZohoEmail.bulk_action mode env act limit days true s).result = .ok res →
        ∃ tf tp pv api, res = .dry tf tp pv api ∧ pv.length ≤ 10) ∧
      ZohoEmail.bulk_action mode env act limit days true
          ((ZohoEmail.bulk_action mode env act limit days true s).st) =
        ZohoEmail.bulk_action mode env act limit days true s := by
  intro mode env act limit days s h
  have hmain : (ZohoEmail.bulk_action mode env act limit days true s).st = s ∧
      (∀ res, (ZohoEmail.bulk_action mode env act limit days true s).result = .ok res →
        ∃ tf tp pv api, res = .dry tf tp pv api ∧ pv.length ≤ 10) := by
    cases mode with
    | rest =>
      unfold ZohoEmail.bulk_action
      simp only
      split
      · split
        · refine ⟨rfl, ?_⟩
          intro res hres
          simp only [Except.ok.injEq] at hres
          refine ⟨_, _, _, _, hres.symm, ?_⟩
          rw [List.length_map, List.length_take]
          exact min_le_left _ _
        · rename_i hd
          exact absurd trivial hd
      · have hd := bulkImapPath_dry .rest env act limit (pyOrDefaultDays days) s h
        refine ⟨hd.1, ?_⟩
        intro res hres
        obtain ⟨tf, tp, pv, hres', hlen⟩ := hd.2 res hres
        exact ⟨tf, tp, pv, .imap, hres', hlen⟩
    | imap =>
      have hd := bulkImapPath_dry .imap env act limit (pyOrDefaultDays days) s h
      refine ⟨hd.1, ?_⟩
      intro res hres
      obtain ⟨tf, tp, pv, hres', hlen⟩ := hd.2 res hres
      exact ⟨tf, tp, pv, .imap, hres', hlen⟩
  exact ⟨hmain.1, hmain.2, by rw [hmain.1]⟩

/-- C3 witness: a concrete dry run over the 120-message mailbox leaves
the mailbox unchanged. -/
theorem C3_witness :
    (ZohoEmail.bulk_action .rest envAllOk .delete 50 none true
        ⟨mk120, false⟩).st = ⟨mk120, false⟩ :=
  (C3_dry_run_purity .rest envAllOk .delete 50 none ⟨mk120, false⟩ rfl).1

/-- C5 counterexample: against a mailbox with 120 matching messages and
`limit = 50`, the REST transport's dry-run bulk action reports
`total_found = 50` — the length of the already-capped search result —
not the unbounded match count 120 that the claim asserts for every
active transport. -/
theorem C5_counterexample :
    (ZohoEmail.bulk_action .rest envAllOk .markRead 50 none true
        ⟨mk120, false⟩).result =
      .ok (.dry 50 50 ((List.range 10).map fun i => i + 1) .rest) := by
  decide

/-- C5 (amended): with 120 matching messages and `limit = 50`, a dry-run
bulk action over the IMAP transport reports
`{dry_run: true, total_found: 120, to_process: 50}` with a 10-element
preview, and zero messages are touched; over the REST transport the
search itself is capped at the limit, so the report is
`{total_found: 50, to_process: 50}`, again with a 10-element preview and
no mutation. -/
theorem C5_scenario_b_amended :
    (ZohoEmail.bulk_action .imap envAllOk .markRead 50 none true
        ⟨mk120, false⟩).result =
      .ok (.dry 120 50 ((List.range 10).map fun i => i + 71) .imap) ∧
    (ZohoEmail.bulk_action .rest envAllOk .markRead 50 none true
        ⟨mk120, false⟩).result =
      .ok (.dry 50 50 ((List.range 10).map fun i => i + 1) .rest) ∧
    (ZohoEmail.bulk_action .imap envAllOk .markRead 50 none true
        ⟨mk120, false⟩).st.box = mk120 ∧
    (ZohoEmail.bulk_action .rest envAllOk .markRead 50 none true
        ⟨mk120, false⟩).st.box = mk120 := by
  refine ⟨by decide, by decide, by decide, by decide⟩

theorem inline_subject_general (k : List Char) :
    ZohoEmail.searchQueryToRestInline ("SUBJECT \"".toList ++ (k ++ ['"'])) =
      some ("subject:".toList ++ k) := by
  have hALL : ¬("SUBJECT \"".toList ++ (k ++ ['"']) = "ALL".toList) := by
    intro hq
    have hlen := congrArg List.length hq
    have h9 : ("SUBJECT \"".toList).length = 9 := rfl
    have h3 : ("ALL".toList).length = 3 := rfl
    have h1 : (['"'] : List Char).length = 1 := rfl
    rw [List.length_append, List.length_append, h9, h3, h1] at hlen
    omega
  have hpre : ("SUBJECT \"".toList).isPrefixOf
      ("SUBJECT \"".toList ++ (k ++ ['"'])) = true := by
    rw [List.isPrefixOf_iff_prefix]
    exact List.prefix_append _ _
  have hlast : ("SUBJECT \"".toList ++ (k ++ ['"'])).getLast? = some '"' := by
    rw [← List.append_assoc]
    exact List.getLast?_concat _
  have hcond : (("SUBJECT \"".toList).isPrefixOf
      ("SUBJECT \"".toList ++ (k ++ ['"'])) &&
      (("SUBJECT \"".toList ++ (k ++ ['"'])).getLast? = some '"')) = true := by
    rw [hpre, hlast]
    simp
  unfold ZohoEmail.searchQueryToRestInline
  rw [if_neg hALL, if_pos hcond]
  congr 1
  rw [List.drop_left' (show ("SUBJECT \"".toList).length = 9 from rfl)]
  simp

theorem inline_from_general (k : List Char) :
    ZohoEmail.searchQueryToRestInline ("FROM \"".toList ++ (k ++ ['"'])) =
      some ("sender:".toList ++ k) := by
  have hALL : ¬("FROM \"".toList ++ (k ++ ['"']) = "ALL".toList) := by
    intro hq
    have hlen := congrArg List.length hq
    have h6 : ("FROM \"".toList).length = 6 := rfl
    have h3 : ("ALL".toList).length = 3 := rfl
    have h1 : (['"'] : List Char).length = 1 := rfl
    rw [List.length_append, List.length_append, h6, h3, h1] at hlen
    omega
  have hsubfalse : ("SUBJECT \"".toList).isPrefixOf
      ("FROM \"".toList ++ (k ++ ['"'])) = false := by
    have hS : "SUBJECT \"".toList = ['S', 'U', 'B', 'J', 'E', 'C', 'T', ' ', '"'] := rfl
    have hF : "FROM \"".toList = ['F', 'R', 'O', 'M', ' ', '"'] := rfl
    rw [hS, hF]
    simp [List.isPrefixOf]
  have hsub : ¬((("SUBJECT \"".toList).isPrefixOf
      ("FROM \"".toList ++ (k ++ ['"'])) &&
      (("FROM \"".toList ++ (k ++ ['"'])).getLast? = some '"')) = true) := by
    rw [hsubfalse]
    simp
  have hpre : ("FROM \"".toList).isPrefixOf
      ("FROM \"".toList ++ (k ++ ['"'])) = true := by
    rw [List.isPrefixOf_iff_prefix]
    exact List.prefix_append _ _
  have hlast : ("FROM \"".toList ++ (k ++ ['"'])).getLast? = some '"' := by
    rw [← List.append_assoc]
    exact List.getLast?_concat _
  have hcond : (("FROM \"".toList).isPrefixOf
      ("FROM \"".toList ++ (k ++ ['"'])) &&
      (("FROM \"".toList ++ (k ++ ['"'])).getLast? = some '"')) = true := by
    rw [hpre, hlast]
    simp
  unfold ZohoEmail.searchQueryToRestInline
  rw [if_neg hALL, if_neg hsub, if_pos hcond]
  congr 1
  rw [List.drop_left' (show ("FROM \"".toList).length = 6 from rfl)]
  simp

/-- C6 counterexample: the claim's composite translation holds for
neither translator — `_convert_imap_search_to_rest` (used by
`bulk_action`) maps `FROM "a@b.c"` to `from:a@b.c`, not `sender:a@b.c`,
and passes unmatched text through without an `entire:` prefix, while the
inline translator of `search_emails` (which does use `sender:` and
`entire:`) does not strip a `SINCE` clause: the clause survives inside
the `entire:` fallthrough query. -/
theorem C6_counterexample :
    ZohoEmail.convert_imap_search_to_rest "FROM \"a@b.c\"".toList ≠
        "sender:a@b.c".toList ∧
    ZohoEmail.convert_imap_search_to_rest "hello".toList ≠
        "entire:hello".toList ∧
    ZohoEmail.searchQueryToRestInline "SUBJECT \"x\" SINCE 01-Oct-2025".toList =
        some "entire:SUBJECT \"x\" SINCE 01-Oct-2025".toList := by
  refine ⟨by decide, by decide, by decide⟩

/-- C6 (amended): the repository has two separate translators.  The
inline translator of `search_emails` maps `SUBJECT "x"` to `subject:x`
and `FROM "x"` to `sender:x` (for every keyword `x`) and falls through
to an `entire:`-prefixed full-text query for unmatched patterns, but it
does not strip `SINCE` clauses.  The regex-based
`_convert_imap_search_to_rest` used by `bulk_action` maps `FROM "x"` to
`from:x` (not `sender:x`), maps `BODY`/`TEXT` to `entire:`, passes
unmatched text through unchanged, and does strip `SINCE <date>` clauses;
the stripped recency window is not re-applied to the REST search call. -/
theorem C6_translator_amended :
    (∀ k : List Char,
       ZohoEmail.searchQueryToRestInline ("SUBJECT \"".toList ++ (k ++ ['"'])) =
         some ("subject:".toList ++ k)) ∧
    (∀ k : List Char,
       ZohoEmail.searchQueryToRestInline ("FROM \"".toList ++ (k ++ ['"'])) =
         some ("sender:".toList ++ k)) ∧
    ZohoEmail.searchQueryToRestInline "hello".toList =
        some "entire:hello".toList ∧
    ZohoEmail.searchQueryToRestInline "SUBJECT \"x\" SINCE 01-Oct-2025".toList =
        some "entire:SUBJECT \"x\" SINCE 01-Oct-2025".toList ∧
    ZohoEmail.convert_imap_search_to_rest "FROM \"a@b.c\"".toList =
        "from:a@b.c".toList ∧
    ZohoEmail.convert_imap_search_to_rest
        "SUBJECT \"Newsletter\" SINCE 01-Oct-2025".toList =
        "subject:Newsletter".toList ∧
    ZohoEmail.convert_imap_search_to_rest "hello".toList = "hello".toList ∧
    ZohoEmail.convert_imap_search_to_rest "BODY \"invoice\"".toList =
        "entire:invoice".toList ∧
    ZohoEmail.convert_imap_search_to_rest "TEXT urgent".toList =
        "entire:urgent".toList :=
  ⟨inline_subject_general, inline_from_general, by decide, by decide, by decide,
   by decide, by decide, by decide, by decide⟩
